import Mathlib

/-!
Verification of the LLM analytics Q&A core of the Award Nominations backend
(`backend/agents/ask_agent.py`, `backend/agents/sql_agent.py`,
`backend/agents/tools/registry.py`, `backend/agents/mcp_export_client.py`).

The Python code is shallowly embedded: external collaborators (the OpenAI
chat-completion client, `sqlhelper`, the exporter package, the MCP export
server) are an explicit environment record whose calls may either return a
value or raise, and every embedded function additionally returns the ordered
list of external calls it performed (its trace).  Python exceptions are
modelled by the `PyOutcome` sum; a `try/except` in the source becomes an
explicit match on that sum.
-/

/-- Outcome of a Python expression that may raise: either a value or an
exception carrying its message. -/
inductive PyOutcome (α : Type) where
  | ok (v : α)
  | raised (msg : String)
  deriving Repr, DecidableEq

instance : Monad PyOutcome where
  pure := .ok
  bind := fun x f =>
    match x with
    | .ok v => f v
    | .raised m => .raised m

/-!
Python string primitives, implemented over the character list of a `String`
(the byte-position-based library versions do not reduce inside the kernel,
so concrete runs could not be evaluated with them).
-/

/-- `startSeg needle hay` holds when `needle` is an initial segment of `hay`. -/
def startSeg [BEq α] : List α → List α → Bool
  | [], _ => true
  | _ :: _, [] => false
  | a :: xs, b :: ys => a == b && startSeg xs ys

/-- `infixSeg needle hay` holds when `needle` occurs contiguously in `hay`. -/
def infixSeg [BEq α] (needle hay : List α) : Bool :=
  match hay with
  | [] => needle.isEmpty
  | _ :: t => startSeg needle hay || infixSeg needle t

/-- Python's `needle in hay` substring test. -/
def containsSub (hay needle : String) : Bool :=
  infixSeg needle.toList hay.toList

/-- Python's `str.lower()` (the source only ever feeds it ASCII). -/
def pyLower (s : String) : String := ⟨s.toList.map Char.toLower⟩

/-- Python's `str.upper()`. -/
def pyUpper (s : String) : String := ⟨s.toList.map Char.toUpper⟩

/-- The whitespace characters Python's `str.strip()` removes. -/
def isSpaceChar (c : Char) : Bool :=
  c == ' ' || c == '\t' || c == '\n' || c == '\r' || c == '\x0b' || c == '\x0c'

/-- Python's `str.strip()`: drop whitespace from both ends. -/
def pyStrip (s : String) : String :=
  ⟨((s.toList.dropWhile isSpaceChar).reverse.dropWhile isSpaceChar).reverse⟩

/-- Python's `str.startswith`. -/
def startsW (s p : String) : Bool := startSeg p.toList s.toList

/-- Python's `str.endswith`. -/
def endsW (s p : String) : Bool := startSeg p.toList.reverse s.toList.reverse

/-- Number of characters of `s` (Python's `len`). -/
def strLen (s : String) : Nat := s.toList.length

/-- Drop the first `n` characters. -/
def strDrop (s : String) (n : Nat) : String := ⟨s.toList.drop n⟩

/-- Drop the last `n` characters. -/
def strDropRight (s : String) (n : Nat) : String :=
  ⟨s.toList.take (s.toList.length - n)⟩

/-- Python's `str.removeprefix`: drop `p` from the front when present. -/
def removePre (s p : String) : String :=
  if startsW s p then strDrop s (strLen p) else s

/-- Python's `str.removesuffix`: drop `p` from the end when present. -/
def removeSuf (s p : String) : String :=
  if endsW s p then strDropRight s (strLen p) else s

/-- `sep.join(parts)`, Python style. -/
def joinSep (sep : String) : List String → String
  | [] => ""
  | [x] => x
  | x :: xs => x ++ sep ++ joinSep sep xs

/-! ## Query Safety Guard (`sql_agent._is_safe`)

`backend/agents/sql_agent.py` and `backend/sql_agent.py` contain the same
guard, transcribed once here. -/

/-- `_SAFETY_KEYWORDS` from `sql_agent.py`. -/
def _SAFETY_KEYWORDS : List String :=
  ["insert", "update", "delete", "drop", "alter", "exec", "execute",
   "truncate", "merge"]

/-- `sql_agent._is_safe`: reject any non-SELECT statements as a safety guard.
```python
lowered = sql.lower().strip()
if not lowered.startswith("select") and lowered != "unsupported":
    return False
return not any(kw in lowered for kw in _SAFETY_KEYWORDS)
``` -/
def _is_safe (sql : String) : Bool :=
  let lowered := pyStrip (pyLower sql)
  if !startsW lowered "select" && lowered != "unsupported" then
    false
  else
    !(_SAFETY_KEYWORDS.any (fun kw => containsSub lowered kw))

/-! ## Data model

Scalar database/JSON values, raw SQL rows (`pyodbc` tuples or dicts), the
result dict shape of the export collaborators, and the JSON argument values
an LLM tool call can carry. -/

/-- A scalar value as it appears in SQL rows and JSON dicts.  Numeric
database values are modelled as integers (the embedded control flow never
branches on fractional parts). -/
inductive Value where
  | str (s : String)
  | num (n : Int)
  | nullV
  deriving Repr, DecidableEq

/-- Python `str()` of a scalar. -/
def scalarStr : Value → String
  | .str s => s
  | .num n => toString n
  | .nullV => "None"

/-- A raw result row from `sqlhelper.run_query`: a `pyodbc` tuple or an
already-dict row (`registry._normalise_rows` handles both). -/
inductive RawRow where
  | tup (cells : List Value)
  | obj (fields : List (String × Value))

/-- Iterating a row in Python: a tuple yields its cells, a dict its keys. -/
def rowIter : RawRow → List Value
  | .tup cs => cs
  | .obj fs => fs.map (fun p => Value.str p.1)

/-- The `{status, download_url, file_size_bytes, message, ...}` dict shape
returned by the export collaborators; each field models `dict.get`. -/
structure ExportDict where
  status : Option String := none
  download_url : Option String := none
  file_size_bytes : Option Nat := none
  message : Option String := none
  deriving Repr, DecidableEq

/-- A JSON value in a tool-call argument bag. -/
inductive ArgVal where
  | str (s : String)
  | rowsV (rs : List RawRow)
  | num (n : Int)
  | noneV

/-- Python truthiness of an argument value. -/
def truthy : ArgVal → Bool
  | .str s => s ≠ ""
  | .rowsV rs => !rs.isEmpty
  | .num n => n ≠ 0
  | .noneV => false

/-- Python `len(...)` on an argument value; raises `TypeError` on values
with no length, exactly as the interpreter does inside the tool bodies. -/
def pyLen : ArgVal → PyOutcome Nat
  | .str s => .ok (strLen s)
  | .rowsV rs => .ok rs.length
  | .num _ => .raised "TypeError: object of type 'int' has no len()"
  | .noneV => .raised "TypeError: object of type 'NoneType' has no len()"

/-- `d.get(k)` on a string-keyed dict. -/
def pyGet (d : List (String × Value)) (k : String) : Option Value :=
  (d.find? (fun p => p.1 == k)).map (fun p => p.2)

/-- `d.get(k, dflt)`. -/
def pyGetD (d : List (String × Value)) (k : String) (dflt : Value) : Value :=
  (pyGet d k).getD dflt

/-- Tuple indexing `t[i]`; raises `IndexError` out of range. -/
def pyIx (l : List Value) (i : Nat) : PyOutcome Value :=
  match l.get? i with
  | some v => .ok v
  | none => .raised "IndexError: tuple index out of range"

/-- Effectful `map` over a list in the exception monad (a Python `for`
loop / comprehension whose body may raise). -/
def mapPy (f : α → PyOutcome β) : List α → PyOutcome (List β)
  | [] => .ok []
  | x :: xs => do
      let b ← f x
      let bs ← mapPy f xs
      pure (b :: bs)

/-! ## External-call events and the collaborator environment -/

/-- One external call performed by the embedded code, in program order,
together with the collaborator's response. -/
inductive Event where
  | clientInit (outcome : PyOutcome Unit)
  | sqlGenLlmCall (question : String) (outcome : PyOutcome (Option String))
  | answerLlmCall (system user : String) (outcome : PyOutcome (Option String))
  | runQueryCall (sql : ArgVal) (outcome : PyOutcome (List RawRow))
  | getterCall (name : String)
  | mcpToolCall (tool : String) (outcome : PyOutcome ExportDict)
  | exporterCall (tool : String) (outcome : PyOutcome ExportDict)

/-- Argument bag `export_analytics` sends to the MCP export server. -/
structure ExportArgs where
  question : Option String := none
  answer : Option String := none
  data_table : Option (List RawRow) := none
  filename : Option String := none

/-- The external collaborators of the agents, as response functions.  A
field returning `PyOutcome` models a boundary whose call may raise.  The
two chat-completion call sites (`sql_agent.generate_sql` and
`AskAgent._call_llm`) are separate fields keyed by the request content
they send; `answerLlm`'s `Option String` result is
`response.choices[0].message.content`, which may be JSON `null`. -/
structure Env where
  /-- `OpenAI(...)` construction inside `AskAgent._get_client`. -/
  clientInit : PyOutcome Unit
  /-- The completion in `generate_sql`, keyed by the user question it embeds. -/
  sqlGenLlm : String → PyOutcome (Option String)
  /-- The completion in `_call_llm`, keyed by system and user prompt. -/
  answerLlm : String → String → PyOutcome (Option String)
  /-- `sqlhelper.run_query` (it receives whatever the argument bag held). -/
  run_query : ArgVal → PyOutcome (List RawRow)
  /-- The six `sqlhelper` getters used by the broad-context fallback. -/
  get_analytics_overview : PyOutcome (List (String × Value))
  get_approval_metrics : PyOutcome (List (String × Value))
  get_diversity_metrics : PyOutcome (List (String × Value))
  get_department_spending : PyOutcome (List (List Value))
  get_top_recipients : Nat → PyOutcome (List (List Value))
  get_top_nominators : Nat → PyOutcome (List (List Value))
  /-- One MCP tool invocation (spawn + initialize + call + JSON parse). -/
  mcpCall : String → ExportArgs → PyOutcome ExportDict
  /-- The exporter package functions used by the tool registry
  (`exporters.export_excel` / `export_pdf` / `export_csv`). -/
  export_excel : ArgVal → ArgVal → ArgVal → ArgVal → PyOutcome ExportDict
  export_pdf : ArgVal → ArgVal → ArgVal → ArgVal → PyOutcome ExportDict
  export_csv : ArgVal → ArgVal → PyOutcome ExportDict
  /-- Content of `ask_agent_system_prompt.md`, read at startup. -/
  askSystemPromptFile : String

/-! ## `sql_agent.generate_sql` (`backend/agents/sql_agent.py`) -/

/-- The post-processing `generate_sql` applies to the completion text:
`raw.strip()` then `.removeprefix("```sql").removeprefix("```")
.removesuffix("```").strip()`. -/
def cleanSqlResponse (raw : String) : String :=
  pyStrip (removeSuf (removePre (removePre (pyStrip raw) "```sql") "```") "```")

/-- `generate_sql`: ask the completion collaborator for T-SQL and return
`some sql`, or `none` on the `UNSUPPORTED` sentinel or a guard rejection.
API errors propagate (the agents-package version has no `try` around the
request); `None` content raises (`.strip()` on `None`). -/
def generate_sql (env : Env) (question : String) :
    PyOutcome (Option String) × List Event :=
  match env.sqlGenLlm question with
  | .raised m => (.raised m, [.sqlGenLlmCall question (.raised m)])
  | .ok content =>
    let evs := [Event.sqlGenLlmCall question (.ok content)]
    match content with
    | none =>
      (.raised "AttributeError: 'NoneType' object has no attribute 'strip'", evs)
    | some raw0 =>
      let raw := cleanSqlResponse raw0
      if pyUpper raw = "UNSUPPORTED" then (.ok none, evs)
      else if !_is_safe raw then (.ok none, evs)
      else (.ok (some raw), evs)

/-! ## `AskAgent` helpers (`backend/agents/ask_agent.py`) -/

/-- `AskAgent._format_targeted_context`. -/
def _format_targeted_context (question sql : String) (rows : List RawRow) :
    String :=
  let rows_text :=
    if rows.isEmpty then "  (no results)"
    else
      let lines := (rows.take 50).enum.map (fun p =>
        "  Row " ++ toString (p.1 + 1) ++ ": " ++
        joinSep ", " ((rowIter p.2).map scalarStr))
      let lines :=
        if rows.length > 50 then
          lines ++
            ["  ... and " ++ toString (rows.length - 50) ++ " more rows (truncated)"]
        else lines
      joinSep "\n" lines
  "TARGETED QUERY RESULT for: \"" ++ question ++ "\"\n\n" ++
  "SQL executed:\n" ++ sql ++ "\n\n" ++
  "Results (" ++ toString rows.length ++ " rows):\n" ++ rows_text

/-- One `"\n- {r[1]} {r[2]}: {r[3]} <unit>, ${r[4]}"` line of the broad
context (top recipients / top nominators); tuple indexing may raise. -/
def personLine (unit : String) (r : List Value) : PyOutcome String := do
  let a ← pyIx r 1
  let b ← pyIx r 2
  let c ← pyIx r 3
  let d ← pyIx r 4
  pure ("\n- " ++ scalarStr a ++ " " ++ scalarStr b ++ ": " ++ scalarStr c ++
        " " ++ unit ++ ", $" ++ scalarStr d)

/-- One department line `"\n- {d[0]}: {d[1]} awards, ${d[2]} total, ${d[3]} avg"`. -/
def deptLine (dept : List Value) : PyOutcome String := do
  let a ← pyIx dept 0
  let b ← pyIx dept 1
  let c ← pyIx dept 2
  let d ← pyIx dept 3
  pure ("\n- " ++ scalarStr a ++ ": " ++ scalarStr b ++ " awards, $" ++
        scalarStr c ++ " total, $" ++ scalarStr d ++ " avg")

/-- The text assembled by `_build_full_context` from the six getter results.
Python's numeric presentation details (`* 100`, `:,`, `:.2f`, `:.3f`) are
abstracted to the plain printed scalar: nothing downstream inspects this
text, it is only shipped to the completion collaborator. -/
def fullContextText (overview approval diversity : List (String × Value))
    (dept recips noms : List (List Value)) : PyOutcome String := do
  let base :=
    "AWARD NOMINATION ANALYTICS DATA:\n\n" ++
    "Overview:\n" ++
    "- Total Nominations: " ++ scalarStr (pyGetD overview "totalNominations" (.num 0)) ++ "\n" ++
    "- Total Amount Spent: $" ++ scalarStr (pyGetD overview "totalAmount" (.num 0)) ++ "\n" ++
    "- Approved: " ++ scalarStr (pyGetD overview "approvedCount" (.num 0)) ++ "\n" ++
    "- Pending: " ++ scalarStr (pyGetD overview "pendingCount" (.num 0)) ++ "\n" ++
    "- Average Award: $" ++ scalarStr (pyGetD overview "avgAmount" (.num 0)) ++ "\n" ++
    "- Rejection Rate: " ++ scalarStr (pyGetD overview "rejectionRate" (.num 0)) ++ "%\n\n" ++
    "Approval Metrics:\n" ++
    "- Approved: " ++ scalarStr (pyGetD approval "approvedCount" (.num 0)) ++ "\n" ++
    "- Rejected: " ++ scalarStr (pyGetD approval "rejectedCount" (.num 0)) ++ "\n" ++
    "- Avg Days to Approval: " ++ scalarStr (pyGetD approval "avgDaysToApproval" (.num 0)) ++ "\n" ++
    "- Approval Rate: " ++ scalarStr (pyGetD approval "approvalRate" (.num 0)) ++ "%\n\n" ++
    "Diversity Metrics:\n" ++
    "- Unique Recipients: " ++ scalarStr (pyGetD diversity "uniqueRecipients" (.num 0)) ++ "\n" ++
    "- Gini Coefficient: " ++ scalarStr (pyGetD diversity "giniCoefficient" (.num 0)) ++ "\n" ++
    "- Top Recipient Share: " ++ scalarStr (pyGetD diversity "topRecipientPercent" (.num 0)) ++ "%\n\n" ++
    "Top Recipients:"
  let rl ← mapPy (personLine "awards") recips
  let nl ← mapPy (personLine "nominations") noms
  let dl ← mapPy deptLine dept
  pure (base ++ joinSep "" rl ++ "\n\nTop Nominators:" ++ joinSep "" nl ++
        "\n\nDepartment Breakdown:" ++ joinSep "" dl)

/-- `AskAgent._build_full_context`: the six `sqlhelper` getters, in program
order, each a suspension point whose exception propagates, then the
assembled text. -/
def _build_full_context (env : Env) : PyOutcome String × List Event :=
  let e1 := [Event.getterCall "get_analytics_overview"]
  match env.get_analytics_overview with
  | .raised m => (.raised m, e1)
  | .ok overview =>
    let e2 := e1 ++ [Event.getterCall "get_approval_metrics"]
    match env.get_approval_metrics with
    | .raised m => (.raised m, e2)
    | .ok approval =>
      let e3 := e2 ++ [Event.getterCall "get_diversity_metrics"]
      match env.get_diversity_metrics with
      | .raised m => (.raised m, e3)
      | .ok diversity =>
        let e4 := e3 ++ [Event.getterCall "get_department_spending"]
        match env.get_department_spending with
        | .raised m => (.raised m, e4)
        | .ok dept =>
          let e5 := e4 ++ [Event.getterCall "get_top_recipients"]
          match env.get_top_recipients 5 with
          | .raised m => (.raised m, e5)
          | .ok recips =>
            let e6 := e5 ++ [Event.getterCall "get_top_nominators"]
            match env.get_top_nominators 5 with
            | .raised m => (.raised m, e6)
            | .ok noms =>
              match fullContextText overview approval diversity dept recips noms with
              | .raised m => (.raised m, e6)
              | .ok ctx => (.ok ctx, e6)

/-- `AskAgent._build_context`: try the SQL agent first, fetch the targeted
rows, and fall back to the broad context when `generate_sql` yields no
query or the targeted query raises (that exception is the only one caught
here). -/
def _build_context (env : Env) (question : String) :
    PyOutcome (Option String × List RawRow × String × Bool) × List Event :=
  match generate_sql env question with
  | (.raised m, evs) => (.raised m, evs)
  | (.ok sqlOpt, evs1) =>
    let fb := fun (evs : List Event) =>
      match _build_full_context env with
      | (.raised m, evs2) => (.raised m, evs ++ evs2)
      | (.ok ctx, evs2) => (.ok (none, ([], (ctx, true))), evs ++ evs2)
    match sqlOpt with
    | some sql =>
      if sql = "" then fb evs1   -- `if sql:` — the empty string is falsy
      else
        match env.run_query (.str sql) with
        | .ok rows =>
          (.ok (some sql, (rows, (_format_targeted_context question sql rows, false))),
           evs1 ++ [.runQueryCall (.str sql) (.ok rows)])
        | .raised m => fb (evs1 ++ [.runQueryCall (.str sql) (.raised m)])
    | none => fb evs1

/-! ## MCP export client (`backend/agents/mcp_export_client.py`) -/

/-- `detect_export_format`: keyword scan over the lower-cased question. -/
def detect_export_format (question : String) : Option String :=
  let q := pyLower question
  if ["excel", "spreadsheet", "xlsx", "workbook"].any (fun w => containsSub q w) then
    some "excel"
  else if ["pdf", "report", "document"].any (fun w => containsSub q w) then
    some "pdf"
  else if ["csv", "comma separated", "comma-separated", "download data"].any
      (fun w => containsSub q w) then
    some "csv"
  else none

/-- `_FORMAT_TO_TOOL`: friendly format names to MCP tool names. -/
def _FORMAT_TO_TOOL : List (String × String) :=
  [("excel", "export_to_excel"), ("xlsx", "export_to_excel"),
   ("pdf", "export_to_pdf"), ("csv", "export_to_csv")]

/-- `dict.get` on a string-to-string map. -/
def mapGet (m : List (String × String)) (k : String) : Option String :=
  (m.find? (fun p => p.1 == k)).map (fun p => p.2)

/-- `_rows_to_dicts`: tuples to `{col_i: v}` dicts (or `dict(zip(columns,
row))` when column names are given); dict rows pass through unchanged. -/
def _rows_to_dicts (rows : List RawRow) (columns : Option (List String)) :
    List RawRow :=
  match rows with
  | [] => []
  | .obj _ :: _ => rows
  | .tup _ :: _ =>
    match columns with
    | some cols => rows.map (fun r => .obj (cols.zip (rowIter r)))
    | none =>
      rows.map (fun r =>
        .obj ((rowIter r).enum.map (fun p => ("col_" ++ toString p.1, p.2))))

/-- Python truthiness of `rows: list | None`. -/
def rowsFalsy : Option (List RawRow) → Bool
  | none => true
  | some l => l.isEmpty

/-- `export_analytics`: pick the MCP tool for the requested format, shape
the argument bag, call the MCP export server and hand back its parsed
result dict; every internal failure is converted to a
`{"status": "error", "message": ...}` dict, never raised. -/
def export_analytics (env : Env) (format question answer : String)
    (rows : Option (List RawRow)) (columns : Option (List String))
    (filename : Option String) : ExportDict × List Event :=
  match mapGet _FORMAT_TO_TOOL (pyLower format) with
  | none =>
    ({status := some "error",
      message := some ("Unsupported export format: '" ++ format ++
        "'. Use excel, pdf, or csv.")}, [])
  | some tool_name =>
    if tool_name = "export_to_csv" && rowsFalsy rows then
      ({status := some "error",
        message := some "CSV export requires data rows but none were provided."}, [])
    else
      let data_table : Option (List RawRow) :=
        if rowsFalsy rows then none
        else some (_rows_to_dicts (rows.getD []) columns)
      -- `if data_table:` / `if filename:` — empty values are not sent
      let dt := match data_table with
        | some l => if l.isEmpty then none else some l
        | none => none
      let fn := match filename with
        | some f => if f = "" then none else some f
        | none => none
      let args : ExportArgs :=
        if tool_name = "export_to_csv" then
          { data_table := dt, filename := fn }
        else
          { question := some question, answer := some answer,
            data_table := dt, filename := fn }
      match env.mcpCall tool_name args with
      | .ok parsed => (parsed, [.mcpToolCall tool_name (.ok parsed)])
      | .raised m =>
        ({status := some "error", message := some m},
         [.mcpToolCall tool_name (.raised m)])

/-! ## `AskAgent.ask` -/

/-- The extra system-prompt paragraph `_call_llm` appends when an export
was requested. -/
def exportAddendum (fmt : String) : String :=
  "\n\nIMPORTANT: The user has requested a " ++ pyUpper fmt ++ " export. " ++
  "A " ++ pyUpper fmt ++
  " file is being generated automatically with the full data. " ++
  "Do NOT reproduce the raw data or generate file content in your response. " ++
  "Instead, briefly confirm what data will be in the export file and provide any useful insights or summary."

/-- The system prompt `_call_llm` sends. -/
def askSystemPrompt (env : Env) (export_format : Option String) : String :=
  match export_format with
  | some fmt => env.askSystemPromptFile ++ exportAddendum fmt
  | none => env.askSystemPromptFile

/-- The user prompt `_call_llm` sends. -/
def askUserPrompt (context question : String) : String :=
  context ++ "\n\nQuestion: " ++ question ++
  "\n\nProvide a detailed, data-driven response."

/-- `AskAgent._call_llm`: one completion request.  An API error is
re-raised after logging; `None` content raises
`ValueError("LLM returned an empty response")`; otherwise the stripped
content is the answer. -/
def _call_llm (env : Env) (question context : String)
    (export_format : Option String) : PyOutcome String × List Event :=
  let sys := askSystemPrompt env export_format
  let usr := askUserPrompt context question
  match env.answerLlm sys usr with
  | .raised m => (.raised m, [.answerLlmCall sys usr (.raised m)])
  | .ok none =>
    (.raised "LLM returned an empty response", [.answerLlmCall sys usr (.ok none)])
  | .ok (some content) =>
    (.ok (pyStrip content), [.answerLlmCall sys usr (.ok (some content))])

/-- The `AskResult` dataclass. -/
structure AskResult where
  question : String
  answer : String
  sql : Option String := none
  rows_fetched : Nat := 0
  used_rag : Bool := false
  export_format : Option String := none
  export_path : Option String := none
  export_size : Nat := 0
  error : Option String := none
  deriving Repr, DecidableEq

/-- The body of `AskAgent.ask` inside its `try:` — any `.raised` outcome
here is what the `except Exception` clause receives. -/
def askBody (env : Env) (question : String) : PyOutcome AskResult × List Event :=
  match env.clientInit with
  | .raised m => (.raised m, [.clientInit (.raised m)])
  | .ok _ =>
    let e0 := [Event.clientInit (.ok ())]
    let export_format := detect_export_format question
    match _build_context env question with
    | (.raised m, evs1) => (.raised m, e0 ++ evs1)
    | (.ok (sql, rows, context, used_rag), evs1) =>
      match _call_llm env question context export_format with
      | (.raised m, evs2) => (.raised m, e0 ++ evs1 ++ evs2)
      | (.ok answer, evs2) =>
        match export_format with
        | none =>
          (.ok { question := question, answer := answer, sql := sql,
                 rows_fetched := rows.length, used_rag := used_rag,
                 export_format := none, export_path := none,
                 export_size := 0, error := none },
           e0 ++ evs1 ++ evs2)
        | some fmt =>
          let (export_result, evs3) :=
            export_analytics env fmt question answer (some rows) none none
          let export_path :=
            if export_result.status = some "success" then
              export_result.download_url
            else none
          let export_size :=
            if export_result.status = some "success" then
              export_result.file_size_bytes.getD 0
            else 0
          (.ok { question := question, answer := answer, sql := sql,
                 rows_fetched := rows.length, used_rag := used_rag,
                 export_format := some fmt, export_path := export_path,
                 export_size := export_size, error := none },
           e0 ++ evs1 ++ evs2 ++ evs3)

/-- `AskAgent.ask`: the full Q&A pipeline.  The `except Exception` clause
turns any exception from the body into an `AskResult` with `error` set
and an empty answer. -/
def ask (env : Env) (question : String) : AskResult × List Event :=
  match askBody env question with
  | (.ok r, evs) => (r, evs)
  | (.raised m, evs) =>
    ({ question := question, answer := "", error := some m }, evs)

/-! ## Tool registry and dispatcher (`backend/agents/tools/registry.py`)

`dispatch` serializes its result dict with `json.dumps` before returning;
the embedding keeps the structured dict (`Payload`), the serialization
adds nothing the agents' control flow depends on. -/

/-- The result dict a registry tool hands back to `dispatch`. -/
inductive Payload where
  | queryOk (sql : ArgVal) (row_count : Nat) (rows : List RawRow)
  | queryErr (message : String) (sql : ArgVal)
  | overviewOk (overview approval_metrics diversity_metrics : List (String × Value))
      (department_spending top_recipients top_nominators : List (List (String × Value)))
  | overviewErr (message : String)
  | exportRes (d : ExportDict)
  | errDict (message : String)

/-- `registry._normalise_rows`: `list[tuple] → list[dict]`, pass-through
when the first row is already a dict. -/
def _normalise_rows (rows : List RawRow) : List RawRow :=
  match rows with
  | [] => []
  | .obj _ :: _ => rows
  | .tup _ :: _ =>
    rows.map (fun r =>
      .obj ((rowIter r).enum.map (fun p => ("col_" ++ toString p.1, p.2))))

/-- `registry._query_database`: run the SQL, normalise, report the full
row count but only the first 200 rows; a query failure becomes an error
dict, never an exception. -/
def _query_database (env : Env) (sql : ArgVal) : Payload × List Event :=
  match env.run_query sql with
  | .ok raw_rows =>
    let rows := _normalise_rows raw_rows
    (.queryOk sql rows.length (rows.take 200),
     [.runQueryCall sql (.ok raw_rows)])
  | .raised m => (.queryErr m sql, [.runQueryCall sql (.raised m)])

/-- `{"department": d[0], "awards": d[1], "total": d[2], "avg": d[3]}`. -/
def deptEntry (d : List Value) : PyOutcome (List (String × Value)) := do
  let a ← pyIx d 0
  let b ← pyIx d 1
  let c ← pyIx d 2
  let e ← pyIx d 3
  pure [("department", a), ("awards", b), ("total", c), ("avg", e)]

/-- `{"id": r[0], "first": r[1], "last": r[2], <countKey>: r[3], "total": r[4]}`. -/
def personEntry (countKey : String) (r : List Value) :
    PyOutcome (List (String × Value)) := do
  let a ← pyIx r 0
  let b ← pyIx r 1
  let c ← pyIx r 2
  let d ← pyIx r 3
  let e ← pyIx r 4
  pure [("id", a), ("first", b), ("last", c), (countKey, d), ("total", e)]

/-- `registry._get_analytics_overview`: the six getters plus the dict
reshaping, all inside one `try` whose failure becomes an error dict. -/
def _get_analytics_overview (env : Env) : Payload × List Event :=
  let e1 := [Event.getterCall "get_analytics_overview"]
  match env.get_analytics_overview with
  | .raised m => (.overviewErr m, e1)
  | .ok overview =>
    let e2 := e1 ++ [Event.getterCall "get_approval_metrics"]
    match env.get_approval_metrics with
    | .raised m => (.overviewErr m, e2)
    | .ok approval =>
      let e3 := e2 ++ [Event.getterCall "get_diversity_metrics"]
      match env.get_diversity_metrics with
      | .raised m => (.overviewErr m, e3)
      | .ok diversity =>
        let e4 := e3 ++ [Event.getterCall "get_department_spending"]
        match env.get_department_spending with
        | .raised m => (.overviewErr m, e4)
        | .ok dept =>
          let e5 := e4 ++ [Event.getterCall "get_top_recipients"]
          match env.get_top_recipients 5 with
          | .raised m => (.overviewErr m, e5)
          | .ok recips =>
            let e6 := e5 ++ [Event.getterCall "get_top_nominators"]
            match env.get_top_nominators 5 with
            | .raised m => (.overviewErr m, e6)
            | .ok noms =>
              match (do
                  let ds ← mapPy deptEntry dept
                  let rs ← mapPy (personEntry "awards") recips
                  let ns ← mapPy (personEntry "nominations") noms
                  pure (ds, (rs, ns)) : PyOutcome _) with
              | .raised m => (.overviewErr m, e6)
              | .ok (ds, rs, ns) =>
                (.overviewOk overview approval diversity ds rs ns, e6)

/-- Outcome of `fn(**tool_args)` as `dispatch` observes it: a value, a
`TypeError` (argument mismatch — also a `len()` on an unsized value in a
tool body), or any other exception. -/
inductive CallOutcome (α : Type) where
  | ok (v : α)
  | typeErr (msg : String)
  | raised (msg : String)

/-- `registry._export_to_excel`: `len(rows)` for the log line, then the
exporter collaborator. -/
def _export_to_excel (env : Env) (question answer rows filename : ArgVal) :
    CallOutcome Payload × List Event :=
  match pyLen rows with
  | .raised m => (.typeErr m, [])
  | .ok _ =>
    match env.export_excel question answer rows filename with
    | .ok d => (.ok (.exportRes d), [.exporterCall "export_to_excel" (.ok d)])
    | .raised m => (.raised m, [.exporterCall "export_to_excel" (.raised m)])

/-- `registry._export_to_pdf`: `len(rows) if rows else 0` for the log
line, then the exporter collaborator. -/
def _export_to_pdf (env : Env) (question answer rows filename : ArgVal) :
    CallOutcome Payload × List Event :=
  match (if truthy rows then pyLen rows else .ok 0) with
  | .raised m => (.typeErr m, [])
  | .ok _ =>
    match env.export_pdf question answer rows filename with
    | .ok d => (.ok (.exportRes d), [.exporterCall "export_to_pdf" (.ok d)])
    | .raised m => (.raised m, [.exporterCall "export_to_pdf" (.raised m)])

/-- `registry._export_to_csv`. -/
def _export_to_csv (env : Env) (rows filename : ArgVal) :
    CallOutcome Payload × List Event :=
  match pyLen rows with
  | .raised m => (.typeErr m, [])
  | .ok _ =>
    match env.export_csv rows filename with
    | .ok d => (.ok (.exportRes d), [.exporterCall "export_to_csv" (.ok d)])
    | .raised m => (.raised m, [.exporterCall "export_to_csv" (.raised m)])

/-- A tool-call argument bag (a JSON object from the model). -/
def ArgBag := List (String × ArgVal)

/-- The keys of an argument bag. -/
def bagKeys (args : ArgBag) : List String := args.map (fun p => p.1)

/-- Key lookup in an argument bag. -/
def bagGet (args : ArgBag) (k : String) : Option ArgVal :=
  (args.find? (fun p => p.1 == k)).map (fun p => p.2)

/-- Python keyword binding for `fn(**args)`: `some msg` is the `TypeError`
the interpreter raises when a key names no parameter or a required
parameter is missing (CPython's aggregated plural phrasing is simplified
to the first offending name). -/
def bindErr (fname : String) (required optional : List String)
    (args : ArgBag) : Option String :=
  match (bagKeys args).find?
      (fun k => !(required.contains k || optional.contains k)) with
  | some k =>
    some (fname ++ "() got an unexpected keyword argument '" ++ k ++ "'")
  | none =>
    match required.find? (fun k => !(bagKeys args).contains k) with
    | some k =>
      some (fname ++ "() missing 1 required positional argument: '" ++ k ++ "'")
    | none => none

/-- `_REGISTRY.get(tool_name)` followed by `fn(**tool_args)`: `none` for
an unknown name, otherwise the observed call outcome of the implementing
function with the bag's values bound by keyword (absent optional
parameters get their Python defaults). -/
def runToolCall (env : Env) (tool_name : String) (args : ArgBag) :
    Option (CallOutcome Payload × List Event) :=
  match tool_name with
  | "query_database" =>
    some (match bindErr "_query_database" ["sql"] [] args with
      | some te => (.typeErr te, [])
      | none =>
        let (p, evs) := _query_database env ((bagGet args "sql").getD .noneV)
        (.ok p, evs))
  | "get_analytics_overview" =>
    some (match bindErr "_get_analytics_overview" [] [] args with
      | some te => (.typeErr te, [])
      | none =>
        let (p, evs) := _get_analytics_overview env
        (.ok p, evs))
  | "export_to_excel" =>
    some (match bindErr "_export_to_excel" ["question", "answer", "rows"]
        ["filename"] args with
      | some te => (.typeErr te, [])
      | none =>
        _export_to_excel env ((bagGet args "question").getD .noneV)
          ((bagGet args "answer").getD .noneV)
          ((bagGet args "rows").getD .noneV)
          ((bagGet args "filename").getD .noneV))
  | "export_to_pdf" =>
    some (match bindErr "_export_to_pdf" ["question", "answer"]
        ["rows", "filename"] args with
      | some te => (.typeErr te, [])
      | none =>
        _export_to_pdf env ((bagGet args "question").getD .noneV)
          ((bagGet args "answer").getD .noneV)
          ((bagGet args "rows").getD .noneV)
          ((bagGet args "filename").getD .noneV))
  | "export_to_csv" =>
    some (match bindErr "_export_to_csv" ["rows"] ["filename"] args with
      | some te => (.typeErr te, [])
      | none =>
        _export_to_csv env ((bagGet args "rows").getD .noneV)
          ((bagGet args "filename").getD .noneV))
  | _ => none

/-- `registry.dispatch`: called by the agent loop for every tool call the
model requests; always returns a result dict, converting an unknown name,
a `TypeError`, or any other exception into `{"status": "error", ...}`. -/
def dispatch (env : Env) (tool_name : String) (tool_args : ArgBag) :
    Payload × List Event :=
  match runToolCall env tool_name tool_args with
  | none => (.errDict ("Unknown tool: " ++ tool_name), [])
  | some (.ok p, evs) => (p, evs)
  | some (.typeErr te, evs) =>
    (.errDict ("Invalid arguments for " ++ tool_name ++ ": " ++ te), evs)
  | some (.raised m, evs) => (.errDict m, evs)

/-! ## Concrete collaborator environments and derived-field helpers -/

/-- An all-succeeding collaborator environment: the SQL agent answers
`UNSUPPORTED`, the answer completion returns text, queries return no
rows, exports succeed. -/
def baseEnv : Env where
  clientInit := .ok ()
  sqlGenLlm := fun _ => .ok (some "UNSUPPORTED")
  answerLlm := fun _ _ => .ok (some "All good.")
  run_query := fun _ => .ok []
  get_analytics_overview := .ok []
  get_approval_metrics := .ok []
  get_diversity_metrics := .ok []
  get_department_spending := .ok []
  get_top_recipients := fun _ => .ok []
  get_top_nominators := fun _ => .ok []
  mcpCall := fun _ _ =>
    .ok { status := some "success", download_url := some "https://blob/x",
          file_size_bytes := some 123 }
  export_excel := fun _ _ _ _ => .ok { status := some "success" }
  export_pdf := fun _ _ _ _ => .ok { status := some "success" }
  export_csv := fun _ _ => .ok { status := some "success" }
  askSystemPromptFile := ""

/-- The names `_REGISTRY` maps. -/
def registryNames : List String :=
  ["query_database", "get_analytics_overview", "export_to_excel",
   "export_to_pdf", "export_to_csv"]

/-- Value of an outcome, or a default. -/
def okOrD {α : Type} (x : PyOutcome α) (dflt : α) : α :=
  match x with
  | .ok v => v
  | .raised _ => dflt

/-- The environment whose answer completion has absent content. -/
def c7EnvNone : Env := { baseEnv with answerLlm := fun _ _ => .ok none }

/-- The fallback context `ask` builds for `"hello"` under `c7EnvNone`. -/
def c7Ctx : String :=
  (okOrD (_build_context c7EnvNone "hello").1 (none, ([], ("", true)))).2.2.1

/-- The fallback context `ask` builds for `"hello"` under `baseEnv`. -/
def baseCtx : String :=
  (okOrD (_build_context baseEnv "hello").1 (none, ([], ("", true)))).2.2.1

/-- The environment whose MCP export server reports a failure. -/
def c10Env : Env :=
  { baseEnv with
    mcpCall := fun _ _ =>
      .ok { status := some "error", message := some "disk full" } }

/-- The fallback context `ask` builds for the export question under `c10Env`. -/
def c10Ctx : String :=
  (okOrD (_build_context c10Env "give me a pdf").1 (none, ([], ("", true)))).2.2.1

/-- Is this event a model-completion request? -/
def isLlmEvent : Event → Bool
  | .sqlGenLlmCall .. => true
  | .answerLlmCall .. => true
  | _ => false

/-- Number of model-completion requests in a trace. -/
def llmCallCount (evs : List Event) : Nat := (evs.filter isLlmEvent).length

/-- The Result Aggregator as the spec words it (§4.4): scan the trace
once, in order, keeping the last successful occurrence of each
field-producing tool type — the executed query with its row count, and
the successful export with its reference and size.  Defined here from the
spec's description, to be compared with the fields `ask` actually
derives. -/
def summarizeStep (acc : Option String × Nat × Option String × Nat)
    (ev : Event) : Option String × Nat × Option String × Nat :=
  match ev with
  | .runQueryCall (.str s) (.ok rows) =>
    (some s, (rows.length, (acc.2.2.1, acc.2.2.2)))
  | .mcpToolCall _ (.ok d) =>
    if d.status = some "success" then
      (acc.1, (acc.2.1, (d.download_url, d.file_size_bytes.getD 0)))
    else acc
  | _ => acc

/-- Fold of `summarizeStep` from the empty derived fields. -/
def summarize (trace : List Event) : Option String × Nat × Option String × Nat :=
  trace.foldl summarizeStep (none, (0, (none, 0)))

/-- Environment exercising the targeted query and a successful export. -/
def c8Env : Env :=
  { baseEnv with
    sqlGenLlm := fun _ => .ok (some "SELECT TOP 5 * FROM Nominations"),
    run_query := fun _ => .ok [.tup [.num 1]] }

/-! ## Theorems -/

/-- The guard accepts the `UNSUPPORTED` sentinel (lower-cased by the
normalization) even though it does not begin with `select`. -/
theorem c3_safety_guard_counterexample :
    startsW (pyStrip (pyLower "unsupported")) "select" = false ∧
    containsSub (pyStrip (pyLower "unsupported")) "insert" = false ∧
    _is_safe "unsupported" = true := by
  refine ⟨by decide, by decide, by decide⟩

/-- C3 (amended): `_is_safe` accepts a query string iff its lower-cased,
stripped form either begins with `select` or is exactly the sentinel
`unsupported`, and contains none of the nine keywords of
`_SAFETY_KEYWORDS` (which include `exec`, strictly stronger than the
spec's `execute`). -/
theorem c3_safety_guard_characterization (sql : String) :
    _is_safe sql = true ↔
      ((startsW (pyStrip (pyLower sql)) "select" = true ∨
        pyStrip (pyLower sql) = "unsupported") ∧
       ∀ kw ∈ _SAFETY_KEYWORDS, containsSub (pyStrip (pyLower sql)) kw = false) := by
  unfold _is_safe
  rcases h1 : startsW (pyStrip (pyLower sql)) "select" with _ | _ <;>
    rcases h2 : pyStrip (pyLower sql) == "unsupported" with _ | _ <;>
    simp_all [List.any_eq_true, beq_iff_eq]

/-- The dispatcher executes a query the safety guard rejects: with
`sql = "DROP TABLE Users"` (rejected by `_is_safe`) the data layer is
still called and the result is a success payload, not an unsafe-query
failure. -/
theorem c2_dispatch_no_guard_counterexample :
    _is_safe "DROP TABLE Users" = false ∧
    dispatch baseEnv "query_database" [("sql", .str "DROP TABLE Users")] =
      (.queryOk (.str "DROP TABLE Users") 0 [],
       [.runQueryCall (.str "DROP TABLE Users") (.ok [])]) :=
  ⟨by decide, rfl⟩

/-- C2 (amended): `dispatch` never consults the Query Safety Guard: a
`query_database` call always performs exactly one `sqlhelper.run_query`
call with the given query text, whatever `_is_safe` says about it.  The
guard is applied only inside `sql_agent.generate_sql`, which returns
`None` for a rejected query before anything executes it. -/
theorem c2_dispatch_always_queries (env : Env) (sql : ArgVal) :
    (dispatch env "query_database" [("sql", sql)]).2 =
      [.runQueryCall sql (env.run_query sql)] := by
  cases h : env.run_query sql <;>
    simp [dispatch, runToolCall, _query_database, bindErr, bagKeys, bagGet,
      List.find?, h]

/-- `_normalise_rows` keeps the number of rows. -/
theorem _normalise_rows_length (rows : List RawRow) :
    (_normalise_rows rows).length = rows.length := by
  unfold _normalise_rows
  rcases rows with _ | ⟨⟨_⟩ | ⟨_⟩, t⟩ <;> simp

/-- C9: a successful `query_database` call over `N` fetched rows reports
`row_count = N` but carries only the first 200 (normalised) rows, so for
`N > 200` the reported count strictly exceeds the rows included. -/
theorem c9_query_row_truncation (env : Env) (sql : ArgVal)
    (raws : List RawRow) (h : env.run_query sql = .ok raws) :
    (dispatch env "query_database" [("sql", sql)]).1 =
      .queryOk sql raws.length ((_normalise_rows raws).take 200) ∧
    ((_normalise_rows raws).take 200).length = min raws.length 200 ∧
    (200 < raws.length →
      ((_normalise_rows raws).take 200).length < raws.length) := by
  refine ⟨?_, ?_, ?_⟩
  · simp [dispatch, runToolCall, _query_database, bindErr, bagKeys, bagGet,
      List.find?, h, _normalise_rows_length]
  · simp [List.length_take, _normalise_rows_length, Nat.min_comm]
  · intro hgt
    simp [List.length_take, _normalise_rows_length]
    omega

/-- Witness for C9 at 201 fetched rows: the hypothesis holds for an
environment whose data layer returns 201 tuple rows, and the payload
reports 201 while carrying 200. -/
theorem c9_query_row_truncation_witness :
    ({ baseEnv with
        run_query := fun _ => .ok (List.replicate 201 (.tup [])) } : Env).run_query
      (.str "select 1") = .ok (List.replicate 201 (.tup [])) ∧
    (dispatch
        { baseEnv with run_query := fun _ => .ok (List.replicate 201 (.tup [])) }
        "query_database" [("sql", .str "select 1")]).1 =
      .queryOk (.str "select 1") (List.replicate 201 (RawRow.tup [])).length
        ((_normalise_rows (List.replicate 201 (RawRow.tup []))).take 200) ∧
    200 < (List.replicate 201 (RawRow.tup [])).length ∧
    ((_normalise_rows (List.replicate 201 (RawRow.tup []))).take 200).length <
      (List.replicate 201 (RawRow.tup [])).length := by
  have h := c9_query_row_truncation
    { baseEnv with run_query := fun _ => .ok (List.replicate 201 (.tup [])) }
    (.str "select 1") (List.replicate 201 (.tup [])) rfl
  exact ⟨rfl, h.1, by rw [List.length_replicate]; norm_num,
    h.2.2 (by rw [List.length_replicate]; norm_num)⟩

/-- An unregistered name has no tool. -/
theorem runToolCall_unknown (env : Env) (name : String) (args : ArgBag)
    (h : name ∉ registryNames) : runToolCall env name args = none := by
  unfold runToolCall
  split <;> simp_all [registryNames]

/-- C4: `dispatch` always hands back a result dict, never an exception:
an unknown tool name yields an error dict naming it; a `TypeError` from
binding the argument bag (here: `query_database` without its required
`sql`) yields an invalid-arguments error dict with the mismatch text;
and an exception from the tool implementation (here: the Excel exporter
collaborator raising behind a well-formed bag) yields an error dict
carrying that message. -/
theorem c4_dispatch_failure_containment (env : Env) :
    (∀ name args, name ∉ registryNames →
      dispatch env name args = (.errDict ("Unknown tool: " ++ name), [])) ∧
    (∀ args te,
      bindErr "_query_database" ["sql"] [] args = some te →
      dispatch env "query_database" args =
        (.errDict ("Invalid arguments for query_database: " ++ te), [])) ∧
    (∀ q a rs m,
      env.export_excel (.str q) (.str a) (.rowsV rs) .noneV = .raised m →
      dispatch env "export_to_excel"
          [("question", .str q), ("answer", .str a), ("rows", .rowsV rs)] =
        (.errDict m, [.exporterCall "export_to_excel" (.raised m)])) := by
  refine ⟨?_, ?_, ?_⟩
  · intro name args h
    simp [dispatch, runToolCall_unknown env name args h]
  · intro args te h
    simp [dispatch, runToolCall, h]
  · intro q a rs m h
    simp [dispatch, runToolCall, _export_to_excel, bindErr, bagKeys, bagGet,
      List.find?, pyLen, h]

/-- Witness for C4: each of the three failure shapes at a concrete
environment and bag. -/
theorem c4_dispatch_failure_containment_witness :
    dispatch { baseEnv with export_excel := fun _ _ _ _ => .raised "boom" }
        "frobnicate" [] =
      (.errDict "Unknown tool: frobnicate", []) ∧
    dispatch { baseEnv with export_excel := fun _ _ _ _ => .raised "boom" }
        "query_database" [] =
      (.errDict
        "Invalid arguments for query_database: _query_database() missing 1 required positional argument: 'sql'",
       []) ∧
    dispatch { baseEnv with export_excel := fun _ _ _ _ => .raised "boom" }
        "export_to_excel"
        [("question", .str "q"), ("answer", .str "a"), ("rows", .rowsV [])] =
      (.errDict "boom", [.exporterCall "export_to_excel" (.raised "boom")]) := by
  have h := c4_dispatch_failure_containment
    { baseEnv with export_excel := fun _ _ _ _ => .raised "boom" }
  exact ⟨h.1 "frobnicate" [] (by decide), h.2.1 [] _ rfl, h.2.2 "q" "a" [] "boom" rfl⟩

/-- Every successful body run of `ask` builds its result with the caller's
question and no error set. -/
theorem askBody_ok_shape (env : Env) (q : String) :
    ∀ r evs, askBody env q = (.ok r, evs) →
      r.question = q ∧ r.error = none := by
  intro r evs h
  unfold askBody at h
  rcases hc : env.clientInit with u | m <;> simp only [hc] at h
  case raised => simp at h
  rcases hbc : _build_context env q with ⟨o1, evs1⟩
  simp only [hbc] at h
  rcases o1 with ⟨sql, rows, ctx, ur⟩ | m
  · rcases hcall : _call_llm env q ctx (detect_export_format q) with ⟨o2, evs2⟩
    simp only [hcall] at h
    rcases o2 with ans | m
    · rcases hfmt : detect_export_format q with _ | fmt <;> simp only [hfmt] at h
      · obtain ⟨h1, -⟩ := Prod.mk.injEq .. |>.mp h
        obtain rfl := (PyOutcome.ok.injEq ..).mp h1
        exact ⟨rfl, rfl⟩
      · rcases hexp : export_analytics env fmt q ans (some rows) none none with ⟨ed, evs3⟩
        simp only [hexp] at h
        obtain ⟨h1, -⟩ := Prod.mk.injEq .. |>.mp h
        obtain rfl := (PyOutcome.ok.injEq ..).mp h1
        exact ⟨rfl, rfl⟩
    · simp at h
  · simp at h

/-- C1: `ask` never propagates an exception — its embedding is a total
function into `AskResult` whose exception paths are all routed through the
`except` clause — and every returned result carries the caller's question
and either no error, or an error message with an empty answer. -/
theorem c1_ask_error_containment (env : Env) (q : String) :
    (ask env q).1.question = q ∧
    ((ask env q).1.error = none ∨
     ((ask env q).1.error ≠ none ∧ (ask env q).1.answer = "")) := by
  unfold ask
  rcases h : askBody env q with ⟨o, evs⟩
  rcases o with r | m
  · have hr := askBody_ok_shape env q r evs h
    simp only [h]
    exact ⟨hr.1, Or.inl hr.2⟩
  · simp [h]

theorem llmCallCount_append (a b : List Event) :
    llmCallCount (a ++ b) = llmCallCount a + llmCallCount b := by
  simp [llmCallCount, List.filter_append]

theorem llmCallCount_generate_sql (env : Env) (q : String) :
    llmCallCount (generate_sql env q).2 = 1 := by
  unfold generate_sql
  cases h : env.sqlGenLlm q with
  | raised m => simp [llmCallCount, isLlmEvent]
  | ok c =>
    cases c with
    | none => simp [llmCallCount, isLlmEvent]
    | some raw0 =>
      dsimp only
      split_ifs <;> simp [llmCallCount, isLlmEvent]

theorem llmCallCount_full_context (env : Env) :
    llmCallCount (_build_full_context env).2 = 0 := by
  unfold _build_full_context
  cases env.get_analytics_overview <;>
    cases env.get_approval_metrics <;>
    cases env.get_diversity_metrics <;>
    cases env.get_department_spending <;>
    cases env.get_top_recipients 5 <;>
    cases env.get_top_nominators 5 <;>
    simp [llmCallCount, isLlmEvent] <;>
    split <;> simp [llmCallCount, isLlmEvent]

theorem llmCallCount_build_context (env : Env) (q : String) :
    llmCallCount (_build_context env q).2 = 1 := by
  unfold _build_context
  rcases hg : generate_sql env q with ⟨o, evs1⟩
  have h1 : llmCallCount evs1 = 1 := by
    have := llmCallCount_generate_sql env q
    rwa [hg] at this
  rcases o with sqlOpt | m
  · rcases sqlOpt with _ | sql
    · rcases hf : _build_full_context env with ⟨o2, evs2⟩
      have h2 : llmCallCount evs2 = 0 := by
        have := llmCallCount_full_context env
        rwa [hf] at this
      cases o2 <;> simp [llmCallCount_append, h1, h2]
    · rcases hf : _build_full_context env with ⟨o2, evs2⟩
      have h2 : llmCallCount evs2 = 0 := by
        have := llmCallCount_full_context env
        rwa [hf] at this
      dsimp only
      split_ifs
      · cases o2 <;> simp [llmCallCount_append, h1, h2]
      · simp only [llmCallCount] at h1 h2
        cases hq : env.run_query (.str sql) <;>
          cases o2 <;>
          simp [llmCallCount_append, llmCallCount, isLlmEvent, hq, h1, h2]
  · simpa using h1

theorem llmCallCount_call_llm (env : Env) (q ctx : String)
    (fmt : Option String) :
    llmCallCount (_call_llm env q ctx fmt).2 = 1 := by
  unfold _call_llm
  cases h : env.answerLlm (askSystemPrompt env fmt) (askUserPrompt ctx q) with
  | raised m => simp [h, llmCallCount, isLlmEvent]
  | ok c => cases c <;> simp [h, llmCallCount, isLlmEvent]

theorem llmCallCount_export (env : Env) (format q a : String)
    (rows : Option (List RawRow)) (cols : Option (List String))
    (fn : Option String) :
    llmCallCount (export_analytics env format q a rows cols fn).2 = 0 := by
  unfold export_analytics
  cases mapGet _FORMAT_TO_TOOL (pyLower format) with
  | none => simp [llmCallCount]
  | some tool =>
    dsimp only
    split
    · simp [llmCallCount]
    · split <;> simp [llmCallCount, isLlmEvent]

/-- C5 (amended): `ask` always terminates having issued at most two
model-completion requests — the `generate_sql` translation call and the
`_call_llm` answer call.  There is no iteration counter, no configurable
maximum, and no `IterationBoundExceeded` error in the pipeline:
termination is structural, the pipeline is straight-line. -/
theorem c5_completion_requests_bounded (env : Env) (q : String) :
    llmCallCount (ask env q).2 ≤ 2 := by
  unfold ask askBody
  rcases hc : env.clientInit with u | m
  · rcases hbc : _build_context env q with ⟨o1, evs1⟩
    have h1 : llmCallCount evs1 = 1 := by
      have := llmCallCount_build_context env q
      rwa [hbc] at this
    rcases o1 with ⟨sql, rows, ctx, ur⟩ | m
    · rcases hcall : _call_llm env q ctx (detect_export_format q) with ⟨o2, evs2⟩
      have h2 : llmCallCount evs2 = 1 := by
        have := llmCallCount_call_llm env q ctx (detect_export_format q)
        rwa [hcall] at this
      rcases o2 with ans | m
      · rcases hfmt : detect_export_format q with _ | fmt
        · simp [hfmt] at hcall h2 ⊢
          simp only [llmCallCount] at h1 h2
          simp [hcall, llmCallCount_append, llmCallCount, isLlmEvent]
          omega
        · simp [hfmt] at hcall h2 ⊢
          rcases hexp : export_analytics env fmt q ans (some rows) none none with ⟨ed, evs3⟩
          have h3 : llmCallCount evs3 = 0 := by
            have := llmCallCount_export env fmt q ans (some rows) none none
            rwa [hexp] at this
          simp only [llmCallCount] at h1 h2 h3
          simp [hcall, hexp, llmCallCount_append, llmCallCount, isLlmEvent]
          omega
      · simp only [llmCallCount] at h1 h2
        simp [hcall, llmCallCount_append, llmCallCount, isLlmEvent]
        omega
    · simp only [llmCallCount] at h1
      simp [hbc, llmCallCount_append, llmCallCount, isLlmEvent]
      omega
  · simp [hc, llmCallCount, isLlmEvent]

/-- C5 counterexample: with a completion collaborator that always answers
with a request for more work, `ask` still returns after exactly two
completion requests, with no error — no path checks an iteration counter
against a maximum of 10 or produces an `IterationBoundExceeded` error. -/
theorem c5_no_iteration_bound_counterexample :
    (ask { baseEnv with
        answerLlm := fun _ _ => .ok (some "CALL MORE TOOLS") }
      "How many nominations?").1.error = none ∧
    (ask { baseEnv with
        answerLlm := fun _ _ => .ok (some "CALL MORE TOOLS") }
      "How many nominations?").1.answer = "CALL MORE TOOLS" ∧
    llmCallCount (ask { baseEnv with
        answerLlm := fun _ _ => .ok (some "CALL MORE TOOLS") }
      "How many nominations?").2 = 2 :=
  ⟨rfl, rfl, rfl⟩

/-- C6: the `UNSUPPORTED` sentinel is a non-fatal automatic rejection:
`generate_sql` maps it to `none` (no query), and `ask` then answers from
the broad non-SQL fallback context (`used_rag = true`) with no error
recorded, provided the remaining collaborators succeed. -/
theorem c6_unsupported_sentinel_nonfatal (env : Env) (q c ctx a : String)
    (hclient : env.clientInit = .ok ())
    (hsql : env.sqlGenLlm q = .ok (some c))
    (huns : pyUpper (cleanSqlResponse c) = "UNSUPPORTED")
    (hfmt : detect_export_format q = none)
    (hctx : (_build_full_context env).1 = .ok ctx)
    (hans : env.answerLlm (askSystemPrompt env none) (askUserPrompt ctx q) =
      .ok (some a)) :
    (generate_sql env q).1 = .ok none ∧
    (ask env q).1.sql = none ∧
    (ask env q).1.used_rag = true ∧
    (ask env q).1.error = none ∧
    (ask env q).1.answer = pyStrip a := by
  have hgen : generate_sql env q =
      (.ok none, [.sqlGenLlmCall q (.ok (some c))]) := by
    unfold generate_sql
    rw [hsql]
    simp [huns]
  rcases hfc : _build_full_context env with ⟨o2, evs2⟩
  obtain rfl : o2 = .ok ctx := by rw [hfc] at hctx; simpa using hctx
  have hbc : _build_context env q =
      (.ok (none, ([], (ctx, true))), [.sqlGenLlmCall q (.ok (some c))] ++ evs2) := by
    unfold _build_context
    rw [hgen, hfc]
  have hcl : _call_llm env q ctx none =
      (.ok (pyStrip a),
       [.answerLlmCall (askSystemPrompt env none) (askUserPrompt ctx q)
          (.ok (some a))]) := by
    unfold _call_llm
    dsimp only
    rw [hans]
  have hask : askBody env q =
      (.ok { question := q, answer := pyStrip a, sql := none,
             rows_fetched := 0, used_rag := true, export_format := none,
             export_path := none, export_size := 0, error := none },
       [Event.clientInit (.ok ())] ++
         ([.sqlGenLlmCall q (.ok (some c))] ++ evs2) ++
         [.answerLlmCall (askSystemPrompt env none) (askUserPrompt ctx q)
            (.ok (some a))]) := by
    unfold askBody
    rw [hclient]
    simp only [hfmt, hbc, hcl]
    rfl
  refine ⟨by rw [hgen], ?_, ?_, ?_, ?_⟩ <;> simp [ask, hask]

/-- Witness for C6: with a collaborator that answers `UNSUPPORTED` to the
translation request, `ask` falls back to the broad context and succeeds. -/
theorem c6_unsupported_sentinel_nonfatal_witness :
    (generate_sql baseEnv "hello").1 = .ok none ∧
    (ask baseEnv "hello").1.sql = none ∧
    (ask baseEnv "hello").1.used_rag = true ∧
    (ask baseEnv "hello").1.error = none ∧
    (ask baseEnv "hello").1.answer = pyStrip "All good." :=
  c6_unsupported_sentinel_nonfatal baseEnv "hello" "UNSUPPORTED"
    (okOrD (_build_full_context baseEnv).1 "") "All good."
    rfl rfl (by decide) rfl rfl rfl

/-- C7 counterexample: a whitespace-only completion is not treated as a
protocol violation — `ask` returns the stripped blank text as the answer
with no error recorded. -/
theorem c7_blank_completion_counterexample :
    (ask { baseEnv with answerLlm := fun _ _ => .ok (some "   ") }
      "hello").1.answer = "" ∧
    (ask { baseEnv with answerLlm := fun _ _ => .ok (some "   ") }
      "hello").1.error = none :=
  ⟨rfl, rfl⟩

/-- C7 (amended): only an *absent* (`None`) completion content is treated
as a violation — `_call_llm` raises `ValueError("LLM returned an empty
response")`, which `ask` converts into `error` set to that message with an
empty answer.  String content, even empty or whitespace-only, is stripped
and returned as the answer with `error = none`. -/
theorem c7_empty_completion_handling (env : Env) (q ctx : String)
    (sqlv : Option String) (rows : List RawRow) (ur : Bool) (evs1 : List Event)
    (hclient : env.clientInit = .ok ())
    (hbc : _build_context env q = (.ok (sqlv, (rows, (ctx, ur))), evs1))
    (hfmt : detect_export_format q = none) :
    (env.answerLlm (askSystemPrompt env none) (askUserPrompt ctx q) = .ok none →
      (ask env q).1.error = some "LLM returned an empty response" ∧
      (ask env q).1.answer = "") ∧
    (∀ c, env.answerLlm (askSystemPrompt env none) (askUserPrompt ctx q) =
        .ok (some c) →
      (ask env q).1.error = none ∧ (ask env q).1.answer = pyStrip c) := by
  constructor
  · intro hans
    have hcl : _call_llm env q ctx none =
        (.raised "LLM returned an empty response",
         [.answerLlmCall (askSystemPrompt env none) (askUserPrompt ctx q)
            (.ok none)]) := by
      unfold _call_llm
      dsimp only
      rw [hans]
    have hask : askBody env q =
        (.raised "LLM returned an empty response",
         [Event.clientInit (.ok ())] ++ evs1 ++
           [.answerLlmCall (askSystemPrompt env none) (askUserPrompt ctx q)
              (.ok none)]) := by
      unfold askBody
      rw [hclient]
      simp only [hfmt, hbc, hcl]
    simp [ask, hask]
  · intro c hans
    have hcl : _call_llm env q ctx none =
        (.ok (pyStrip c),
         [.answerLlmCall (askSystemPrompt env none) (askUserPrompt ctx q)
            (.ok (some c))]) := by
      unfold _call_llm
      dsimp only
      rw [hans]
    have hask : askBody env q =
        (.ok { question := q, answer := pyStrip c, sql := sqlv,
               rows_fetched := rows.length, used_rag := ur,
               export_format := none, export_path := none,
               export_size := 0, error := none },
         [Event.clientInit (.ok ())] ++ evs1 ++
           [.answerLlmCall (askSystemPrompt env none) (askUserPrompt ctx q)
              (.ok (some c))]) := by
      unfold askBody
      rw [hclient]
      simp only [hfmt, hbc, hcl]
    simp [ask, hask]

/-- Witness for C7: both branches at a concrete environment — absent
content sets the error with an empty answer, present content is returned
stripped with no error. -/
theorem c7_empty_completion_handling_witness :
    (ask c7EnvNone "hello").1.error = some "LLM returned an empty response" ∧
    (ask c7EnvNone "hello").1.answer = "" ∧
    (ask baseEnv "hello").1.error = none ∧
    (ask baseEnv "hello").1.answer = pyStrip "All good." := by
  have h1 := c7_empty_completion_handling c7EnvNone "hello" c7Ctx none [] true
    (_build_context c7EnvNone "hello").2 rfl rfl rfl
  have h2 := c7_empty_completion_handling baseEnv "hello" baseCtx none [] true
    (_build_context baseEnv "hello").2 rfl rfl rfl
  exact ⟨(h1.1 rfl).1, (h1.1 rfl).2, (h2.2 "All good." rfl).1,
    (h2.2 "All good." rfl).2⟩

/-- C10: when an export was requested and the export collaborator reports
any status other than `"success"`, `ask` still returns the computed answer
normally: `export_path = none`, `export_size = 0`, and `error = none` —
the export failure is only logged, not recorded on the result. -/
theorem c10_export_failure_nonfatal (env : Env) (q ctx c fmt : String)
    (sqlv : Option String) (rows : List RawRow) (ur : Bool) (evs1 : List Event)
    (hclient : env.clientInit = .ok ())
    (hbc : _build_context env q = (.ok (sqlv, (rows, (ctx, ur))), evs1))
    (hfmt : detect_export_format q = some fmt)
    (hans : env.answerLlm (askSystemPrompt env (some fmt)) (askUserPrompt ctx q) =
      .ok (some c))
    (hexp : (export_analytics env fmt q (pyStrip c) (some rows) none none).1.status ≠
      some "success") :
    (ask env q).1.answer = pyStrip c ∧
    (ask env q).1.export_path = none ∧
    (ask env q).1.export_size = 0 ∧
    (ask env q).1.error = none := by
  have hcl : _call_llm env q ctx (some fmt) =
      (.ok (pyStrip c),
       [.answerLlmCall (askSystemPrompt env (some fmt)) (askUserPrompt ctx q)
          (.ok (some c))]) := by
    unfold _call_llm
    dsimp only
    rw [hans]
  rcases hexpv : export_analytics env fmt q (pyStrip c) (some rows) none none
    with ⟨ed, evs3⟩
  have hst : ¬(ed.status = some "success") := by
    rw [hexpv] at hexp
    simpa using hexp
  have hask : askBody env q =
      (.ok { question := q, answer := pyStrip c, sql := sqlv,
             rows_fetched := rows.length, used_rag := ur,
             export_format := some fmt, export_path := none,
             export_size := 0, error := none },
       [Event.clientInit (.ok ())] ++ evs1 ++
         [.answerLlmCall (askSystemPrompt env (some fmt)) (askUserPrompt ctx q)
            (.ok (some c))] ++ evs3) := by
    unfold askBody
    rw [hclient]
    simp only [hfmt, hbc, hcl, hexpv]
    rw [if_neg hst, if_neg hst]
  simp [ask, hask]

/-- Witness for C10: the export collaborator reports `"error"`, yet `ask`
returns the answer with no export reference and no error. -/
theorem c10_export_failure_nonfatal_witness :
    (ask c10Env "give me a pdf").1.answer = pyStrip "All good." ∧
    (ask c10Env "give me a pdf").1.export_path = none ∧
    (ask c10Env "give me a pdf").1.export_size = 0 ∧
    (ask c10Env "give me a pdf").1.error = none :=
  c10_export_failure_nonfatal c10Env "give me a pdf" c10Ctx "All good." "pdf"
    none [] true (_build_context c10Env "give me a pdf").2
    rfl rfl rfl rfl (by decide)

theorem foldl_summarize_neutral (t : List Event)
    (h : ∀ ev ∈ t, ∀ acc, summarizeStep acc ev = acc) :
    ∀ acc, t.foldl summarizeStep acc = acc := by
  induction t with
  | nil => intro acc; rfl
  | cons e t ih =>
    intro acc
    rw [List.foldl_cons, h e (List.mem_cons_self e t)]
    exact ih (fun ev hev acc' => h ev (List.mem_cons_of_mem e hev) acc') acc

theorem gen_events_neutral (env : Env) (q : String) :
    ∀ ev ∈ (generate_sql env q).2, ∀ acc, summarizeStep acc ev = acc := by
  unfold generate_sql
  cases h : env.sqlGenLlm q with
  | raised m => simp [summarizeStep]
  | ok c =>
    cases c with
    | none => simp [summarizeStep]
    | some raw0 =>
      dsimp only
      split_ifs <;> simp [summarizeStep]

theorem full_context_events_neutral (env : Env) :
    ∀ ev ∈ (_build_full_context env).2, ∀ acc, summarizeStep acc ev = acc := by
  unfold _build_full_context
  cases env.get_analytics_overview with
  | raised m => simp [summarizeStep]
  | ok overview =>
  cases env.get_approval_metrics with
  | raised m => simp [summarizeStep]
  | ok approval =>
  cases env.get_diversity_metrics with
  | raised m => simp [summarizeStep]
  | ok diversity =>
  cases env.get_department_spending with
  | raised m => simp [summarizeStep]
  | ok dept =>
  cases env.get_top_recipients 5 with
  | raised m => simp [summarizeStep]
  | ok recips =>
  cases env.get_top_nominators 5 with
  | raised m => simp [summarizeStep]
  | ok noms =>
  dsimp only
  rcases h : fullContextText overview approval diversity dept recips noms
      with v | m <;>
    simp [summarizeStep]

theorem call_llm_events_neutral (env : Env) (q ctx : String)
    (fmt : Option String) :
    ∀ ev ∈ (_call_llm env q ctx fmt).2, ∀ acc, summarizeStep acc ev = acc := by
  unfold _call_llm
  cases h : env.answerLlm (askSystemPrompt env fmt) (askUserPrompt ctx q) with
  | raised m => simp [h, summarizeStep]
  | ok c => cases c <;> simp [h, summarizeStep]

theorem summarize_build_context (env : Env) (q : String) (sqlv : Option String)
    (rows : List RawRow) (ctx : String) (ur : Bool) (evs1 : List Event)
    (h : _build_context env q = (.ok (sqlv, (rows, (ctx, ur))), evs1)) :
    (∀ acc, evs1.foldl summarizeStep acc =
      match sqlv with
      | some s => (some s, (rows.length, (acc.2.2.1, acc.2.2.2)))
      | none => acc) ∧
    (sqlv = none → rows = []) := by
  unfold _build_context at h
  rcases hg : generate_sql env q with ⟨o, gevs⟩
  have hgn : ∀ ev ∈ gevs, ∀ acc, summarizeStep acc ev = acc := by
    have := gen_events_neutral env q
    rwa [hg] at this
  rw [hg] at h
  rcases o with sqlOpt | m
  · dsimp only at h
    rcases hf : _build_full_context env with ⟨o2, fevs⟩
    have hfn : ∀ ev ∈ fevs, ∀ acc, summarizeStep acc ev = acc := by
      have := full_context_events_neutral env
      rwa [hf] at this
    rw [hf] at h
    rcases sqlOpt with _ | sql
    · dsimp only at h
      rcases o2 with ctx2 | m
      · simp only [Prod.mk.injEq, PyOutcome.ok.injEq] at h
        obtain ⟨⟨h1, h2, h3, h4⟩, h5⟩ := h
        subst h1; subst h2; subst h5
        refine ⟨?_, fun _ => rfl⟩
        intro acc
        rw [List.foldl_append, foldl_summarize_neutral gevs hgn,
          foldl_summarize_neutral fevs hfn]
      · simp at h
    · dsimp only at h
      by_cases hsql : sql = ""
      · rw [if_pos hsql] at h
        rcases o2 with ctx2 | m
        · simp only [Prod.mk.injEq, PyOutcome.ok.injEq] at h
          obtain ⟨⟨h1, h2, h3, h4⟩, h5⟩ := h
          subst h1; subst h2; subst h5
          refine ⟨?_, fun _ => rfl⟩
          intro acc
          rw [List.foldl_append, foldl_summarize_neutral gevs hgn,
            foldl_summarize_neutral fevs hfn]
        · simp at h
      · rw [if_neg hsql] at h
        rcases hq : env.run_query (.str sql) with qrows | m
        · rw [hq] at h
          simp only [Prod.mk.injEq, PyOutcome.ok.injEq] at h
          obtain ⟨⟨h1, h2, h3, h4⟩, h5⟩ := h
          subst h1; subst h2; subst h5
          refine ⟨?_, fun hcon => nomatch hcon⟩
          intro acc
          rw [List.foldl_append, foldl_summarize_neutral gevs hgn]
          simp [summarizeStep, hq]
        · rw [hq] at h
          rcases o2 with ctx2 | m2
          · simp only [Prod.mk.injEq, PyOutcome.ok.injEq] at h
            obtain ⟨⟨h1, h2, h3, h4⟩, h5⟩ := h
            subst h1; subst h2; subst h5
            refine ⟨?_, fun _ => rfl⟩
            intro acc
            rw [List.foldl_append, List.foldl_append,
              foldl_summarize_neutral gevs hgn]
            simp only [List.foldl_cons, List.foldl_nil]
            rw [show summarizeStep acc (.runQueryCall (.str sql) (.raised m)) = acc
              from rfl]
            exact foldl_summarize_neutral fevs hfn acc
          · simp at h
  · simp at h

theorem summarize_export (env : Env) (f q a : String)
    (rows : Option (List RawRow)) (cols : Option (List String))
    (fn : Option String) (ed : ExportDict) (evs : List Event)
    (h : export_analytics env f q a rows cols fn = (ed, evs)) :
    ∀ acc, evs.foldl summarizeStep acc =
      if ed.status = some "success" then
        (acc.1, (acc.2.1, (ed.download_url, ed.file_size_bytes.getD 0)))
      else acc := by
  unfold export_analytics at h
  rcases hm : mapGet _FORMAT_TO_TOOL (pyLower f) with _ | tool
  · rw [hm] at h
    simp only [Prod.mk.injEq] at h
    obtain ⟨h1, h2⟩ := h
    subst h1; subst h2
    intro acc
    simp
  · rw [hm] at h
    dsimp only at h
    split at h
    · simp only [Prod.mk.injEq] at h
      obtain ⟨h1, h2⟩ := h
      subst h1; subst h2
      intro acc
      simp
    · split at h
      · simp only [Prod.mk.injEq] at h
        obtain ⟨h1, h2⟩ := h
        subst h1; subst h2
        intro acc
        simp [summarizeStep]
      · simp only [Prod.mk.injEq] at h
        obtain ⟨h1, h2⟩ := h
        subst h1; subst h2
        intro acc
        simp [summarizeStep]

/-- C8: on every successful run (`error = none`) the derived summary
fields of `ask`'s result — executed query, row count, export reference
and size — equal the spec's `summarize` aggregation of the trace: one
ordered scan keeping the last successful occurrence of each
field-producing call, re-invoking nothing; as a Lean function it is pure,
so two applications to the same trace agree definitionally. -/
theorem c8_aggregator_refinement (env : Env) (q : String)
    (h : (ask env q).1.error = none) :
    summarize (ask env q).2 =
      ((ask env q).1.sql,
       ((ask env q).1.rows_fetched,
        ((ask env q).1.export_path, (ask env q).1.export_size))) := by
  unfold ask askBody at h ⊢
  rcases hc : env.clientInit with u | m
  case raised => simp only [hc] at h; simp at h
  simp only [hc] at h ⊢
  rcases hbc : _build_context env q with ⟨o1, evs1⟩
  simp only [hbc] at h ⊢
  rcases o1 with ⟨sqlv, rows, ctx, ur⟩ | m
  case raised => simp at h
  obtain ⟨hfold, hnil⟩ := summarize_build_context env q sqlv rows ctx ur evs1 hbc
  rcases hfmt : detect_export_format q with _ | fmt <;> simp only [hfmt] at h ⊢
  · rcases hcall : _call_llm env q ctx none with ⟨o2, evs2⟩
    simp only [hcall] at h ⊢
    rcases o2 with ans | m
    case raised => simp at h
    have hev2 : ∀ ev ∈ evs2, ∀ acc, summarizeStep acc ev = acc := by
      have := call_llm_events_neutral env q ctx none
      rwa [hcall] at this
    unfold summarize
    rw [List.foldl_append, List.foldl_append]
    simp only [List.foldl_cons, List.foldl_nil]
    rw [show summarizeStep (none, (0, (none, 0))) (Event.clientInit (.ok ())) =
      (none, (0, (none, 0))) from rfl]
    rw [hfold, foldl_summarize_neutral evs2 hev2]
    rcases sqlv with _ | s
    · obtain rfl := hnil rfl
      simp
    · simp
  · rcases hcall : _call_llm env q ctx (some fmt) with ⟨o2, evs2⟩
    simp only [hcall] at h ⊢
    rcases o2 with ans | m
    case raised => simp at h
    have hev2 : ∀ ev ∈ evs2, ∀ acc, summarizeStep acc ev = acc := by
      have := call_llm_events_neutral env q ctx (some fmt)
      rwa [hcall] at this
    rcases hexp : export_analytics env fmt q ans (some rows) none none
      with ⟨ed, evs3⟩
    simp only [hexp] at h ⊢
    unfold summarize
    rw [List.foldl_append, List.foldl_append, List.foldl_append]
    simp only [List.foldl_cons, List.foldl_nil]
    rw [show summarizeStep (none, (0, (none, 0))) (Event.clientInit (.ok ())) =
      (none, (0, (none, 0))) from rfl]
    rw [hfold, foldl_summarize_neutral evs2 hev2,
      summarize_export env fmt q ans (some rows) none none ed evs3 hexp]
    by_cases hs : ed.status = some "success"
    · rw [if_pos hs]
      rcases sqlv with _ | s
      · obtain rfl := hnil rfl
        simp [hs]
      · simp [hs]
    · rw [if_neg hs]
      rcases sqlv with _ | s
      · obtain rfl := hnil rfl
        simp [hs]
      · simp [hs]

/-- Witness for C8: a run with a targeted query and a successful Excel
export; the aggregation of the trace equals the result's derived fields. -/
theorem c8_aggregator_refinement_witness :
    (ask c8Env "export nominations to excel").1.error = none ∧
    (ask c8Env "export nominations to excel").1.sql =
      some "SELECT TOP 5 * FROM Nominations" ∧
    (ask c8Env "export nominations to excel").1.export_path =
      some "https://blob/x" ∧
    summarize (ask c8Env "export nominations to excel").2 =
      ((ask c8Env "export nominations to excel").1.sql,
       ((ask c8Env "export nominations to excel").1.rows_fetched,
        ((ask c8Env "export nominations to excel").1.export_path,
         (ask c8Env "export nominations to excel").1.export_size))) :=
  ⟨rfl, rfl, rfl,
    c8_aggregator_refinement c8Env "export nominations to excel" rfl⟩
